import Mathlib

/-!
Shallow embedding of the inspection-submission pipeline of the hse_app_api
repository (src/routes/inspections.ts, src/db/schema.ts, src/lib/image.ts).
External collaborators (database, Clerk auth, OpenAI, Vercel Blob, sharp) are
modelled as explicit inputs: the database is assumed reliable (inserts and
updates succeed), external calls are oracles whose outcome is an input of the
embedded handler.  Each request is one sequential unit of work, matching the
await-chain of the source.
-/

namespace HseApp

/-- Calendar instant reduced to the two fields the quota logic reads,
getUTCFullYear and getUTCMonth (0 to 11). -/
structure UDate where
  year : Int
  month : Nat
  deriving DecidableEq, Repr

/-- Port of sameMonth (routes/inspections.ts): equal UTC year and month. -/
def sameMonth (a b : UDate) : Bool :=
  a.year == b.year && a.month == b.month

/-- One row of the users table (db/schema.ts): only the columns the analyze
pipeline reads or writes.  Integer columns have no NOT NULL constraint, hence
Option; the source reads them with a ?? 0 fallback. -/
structure UserRow where
  id : String
  inspectionCount : Option Nat
  monthlyInspectionCount : Option Nat
  lastResetDate : Option UDate
  deriving DecidableEq, Repr

/-- Port of canRunAnotherInspection (routes/inspections.ts): the effective
monthly count is the stored count when now and lastResetDate (falling back to
now when null) share a calendar month, else 0; admission holds while it is
below the limit.  A missing row admits. -/
def canRunAnotherInspection (limit : Nat) (row : Option UserRow) (now : UDate) : Bool :=
  match row with
  | none => true
  | some row =>
      let monthly :=
        if sameMonth now (row.lastResetDate.getD now) then row.monthlyInspectionCount.getD 0
        else 0
      decide (monthly < limit)

/-- The effective monthly count read by canRunAnotherInspection, named so the
claims can speak about it directly. -/
def effectiveMonthly (row : UserRow) (now : UDate) : Nat :=
  if sameMonth now (row.lastResetDate.getD now) then row.monthlyInspectionCount.getD 0
  else 0

/-- Port of incrementUserInspectionCounters (routes/inspections.ts): re-read
the row, logically reset the monthly count when the month changed, then write
lifetime + 1, monthly + 1 and the (possibly restamped) reset date.  A missing
row is a no-op. -/
def incrementUserInspectionCounters (row : Option UserRow) (now : UDate) : Option UserRow :=
  match row with
  | none => none
  | some row =>
      let monthly0 := row.monthlyInspectionCount.getD 0
      let lastReset0 := row.lastResetDate.getD now
      let monthly := if !sameMonth now lastReset0 then 0 else monthly0
      let lastReset := if !sameMonth now lastReset0 then now else lastReset0
      some { row with
        inspectionCount := some (row.inspectionCount.getD 0 + 1)
        monthlyInspectionCount := some (monthly + 1)
        lastResetDate := some lastReset }

/-- The date a is in a strictly earlier calendar month than b. -/
def priorMonth (a b : UDate) : Prop :=
  a.year < b.year ∨ (a.year = b.year ∧ a.month < b.month)

instance (a b : UDate) : Decidable (priorMonth a b) := by
  unfold priorMonth
  exact inferInstance

/-! JSON values as produced by a successful JSON.parse.  Numbers are modelled
as rationals.  Objects keep their fields in order; a duplicate key resolves to
the last occurrence, as JSON.parse does. -/

inductive Json where
  | null : Json
  | bool (b : Bool) : Json
  | num (q : ℚ) : Json
  | str (s : String) : Json
  | arr (xs : List Json) : Json
  | obj (fields : List (String × Json)) : Json

/-- Field lookup on a JSON object, last occurrence wins as in JSON.parse. -/
def jGet (j : Json) (k : String) : Option Json :=
  match j with
  | .obj fs => ((fs.reverse).find? (fun p => p.1 == k)).map (fun p => p.2)
  | _ => none

def asString : Json → Option String
  | .str s => some s
  | _ => none

def asNumber : Json → Option ℚ
  | .num q => some q
  | _ => none

def asArray : Json → Option (List Json)
  | .arr xs => some xs
  | _ => none

def asStringList (j : Json) : Option (List String) :=
  (asArray j).bind (fun xs => xs.mapM asString)

inductive SafetyGrade where
  | A | B | C | D | F
  deriving DecidableEq, Repr

inductive HazardCategory where
  | PPE | Fall | Fire | Electrical | Chemical | Machinery | Environmental | Other
  deriving DecidableEq, Repr

inductive HazardSeverity where
  | Critical | High | Medium | Low
  deriving DecidableEq, Repr

def parseGrade : String → Option SafetyGrade
  | "A" => some .A
  | "B" => some .B
  | "C" => some .C
  | "D" => some .D
  | "F" => some .F
  | _ => none

def parseCategory : String → Option HazardCategory
  | "PPE" => some .PPE
  | "Fall" => some .Fall
  | "Fire" => some .Fire
  | "Electrical" => some .Electrical
  | "Chemical" => some .Chemical
  | "Machinery" => some .Machinery
  | "Environmental" => some .Environmental
  | "Other" => some .Other
  | _ => none

def parseSeverity : String → Option HazardSeverity
  | "Critical" => some .Critical
  | "High" => some .High
  | "Medium" => some .Medium
  | "Low" => some .Low
  | _ => none

/-- One hazard of the validated AnalysisResult (db/schema.ts,
analysisResultSchema). -/
structure Hazard where
  id : String
  description : String
  location : String
  category : HazardCategory
  severity : HazardSeverity
  immediateSolutions : List String
  longTermSolutions : List String
  estimatedCost : Option String
  timeToImplement : Option String
  priority : ℚ
  deriving DecidableEq, Repr

structure OverallAssessment where
  riskScore : ℚ
  safetyGrade : SafetyGrade
  topPriorities : List String
  complianceStandards : Option (List String)
  deriving DecidableEq, Repr

structure AnalysisMetadata where
  analysisTime : ℚ
  tokensUsed : ℚ
  confidence : ℚ
  deriving DecidableEq, Repr

structure AnalysisResult where
  hazards : List Hazard
  overallAssessment : OverallAssessment
  metadata : AnalysisMetadata
  deriving DecidableEq, Repr

/-- Optional string field of a zod object: an absent key validates to none, a
present key must be a string (null fails, as z.string().optional() rejects
null). -/
def optStringField (j : Json) (k : String) : Option (Option String) :=
  match jGet j k with
  | none => some none
  | some v => (asString v).map some

def optStringListField (j : Json) (k : String) : Option (Option (List String)) :=
  match jGet j k with
  | none => some none
  | some v => (asStringList v).map some

/-- Validation of one element of the hazards array, translated clause by
clause from analysisResultSchema (db/schema.ts): required strings, category
and severity enums, arrays of strings, optional strings, priority a number
between 1 and 10. -/
def validateHazard (j : Json) : Option Hazard := do
  let id ← (jGet j "id").bind asString
  let description ← (jGet j "description").bind asString
  let location ← (jGet j "location").bind asString
  let category ← ((jGet j "category").bind asString).bind parseCategory
  let severity ← ((jGet j "severity").bind asString).bind parseSeverity
  let immediateSolutions ← (jGet j "immediateSolutions").bind asStringList
  let longTermSolutions ← (jGet j "longTermSolutions").bind asStringList
  let estimatedCost ← optStringField j "estimatedCost"
  let timeToImplement ← optStringField j "timeToImplement"
  let priority ← (jGet j "priority").bind asNumber
  if 1 ≤ priority ∧ priority ≤ 10 then
    some { id, description, location, category, severity, immediateSolutions,
           longTermSolutions, estimatedCost, timeToImplement, priority }
  else none

/-- Validation of overallAssessment: riskScore a number between 0 and 100,
safetyGrade one of A B C D F, topPriorities at most 3 strings,
complianceStandards an optional array of strings. -/
def validateOverall (j : Json) : Option OverallAssessment := do
  let riskScore ← (jGet j "riskScore").bind asNumber
  let safetyGrade ← ((jGet j "safetyGrade").bind asString).bind parseGrade
  let topPriorities ← (jGet j "topPriorities").bind asStringList
  let complianceStandards ← optStringListField j "complianceStandards"
  if 0 ≤ riskScore ∧ riskScore ≤ 100 ∧ topPriorities.length ≤ 3 then
    some { riskScore, safetyGrade, topPriorities, complianceStandards }
  else none

/-- Validation of metadata: three numbers, confidence between 0 and 100. -/
def validateMetadata (j : Json) : Option AnalysisMetadata := do
  let analysisTime ← (jGet j "analysisTime").bind asNumber
  let tokensUsed ← (jGet j "tokensUsed").bind asNumber
  let confidence ← (jGet j "confidence").bind asNumber
  if 0 ≤ confidence ∧ confidence ≤ 100 then
    some { analysisTime, tokensUsed, confidence }
  else none

/-- Port of analysisResultSchema.parse on an already JSON-parsed value: the
three required keys each validate; unknown keys are stripped.  none models a
thrown ZodError. -/
def validateAnalysisResult (j : Json) : Option AnalysisResult := do
  let hz ← (jGet j "hazards").bind asArray
  let hazards ← hz.mapM validateHazard
  let overallAssessment ← (jGet j "overallAssessment").bind validateOverall
  let metadata ← (jGet j "metadata").bind validateMetadata
  some { hazards, overallAssessment, metadata }

/-! The analyze endpoint (routes/inspections.ts, router.post on /analyze). -/

/-- Request body after express.json, before zod validation. -/
structure AnalyzeBody where
  imageUrl : Option String
  imageData : Option String
  imageType : Option String
  deriving DecidableEq, Repr

/-- Body after analyzePayloadSchema.parse succeeded. -/
structure AnalyzePayload where
  imageUrl : Option String
  imageData : Option String
  imageType : String
  deriving DecidableEq, Repr

/-- Port of analyzePayloadSchema (routes/inspections.ts): imageUrl optional
but must satisfy z.url (modelled by the abstract predicate isUrl), imageData
optional but non-empty, imageType defaulted to image/jpeg, and the refine
clause demanding imageUrl or imageData be present.  none models a failed
safeParse, answered with HTTP 400. -/
def analyzePayloadParse (isUrl : String → Bool) (b : AnalyzeBody) : Option AnalyzePayload :=
  let urlOk := match b.imageUrl with
    | some u => isUrl u
    | none => true
  let dataOk := match b.imageData with
    | some d => decide (1 ≤ d.length)
    | none => true
  if urlOk && dataOk then
    if b.imageUrl.isSome || b.imageData.isSome then
      some { imageUrl := b.imageUrl, imageData := b.imageData,
             imageType := b.imageType.getD "image/jpeg" }
    else none
  else none

/-- Row inserted into the inspections table by the analyze handler. -/
structure InspectionRow where
  userId : String
  imageUrl : String
  originalImageUrl : String
  hazardCount : Nat
  riskScore : ℚ
  safetyGrade : SafetyGrade
  analysisResults : AnalysisResult
  processingStatus : String
  deriving DecidableEq, Repr

/-- Row inserted into the usageLogs table. -/
structure UsageLogRow where
  userId : String
  endpoint : String
  tokensUsed : Option ℚ
  apiCost : Option ℚ
  responseTime : Nat
  success : Bool
  errorType : Option String
  deriving DecidableEq, Repr

/-- Token usage block of the OpenAI completion response. -/
structure OpenAiUsage where
  total_tokens : Option ℚ
  completion_tokens : Option ℚ
  prompt_tokens : Option ℚ
  deriving DecidableEq, Repr

/-- Outcome of the compress-and-upload branch for base64 input: either the
public blob URL, or a thrown error (sharp or Vercel Blob) with its name and
optional HTTP status, routed to the outer catch. -/
inductive B64Outcome where
  | ok (url : String)
  | throwsErr (name : String) (status : Option Nat)

/-- Outcome of the OpenAI chat completion call: either a thrown error with
name and optional status, or a response whose assistant text JSON.parses to
the given value (none models text that is not valid JSON) together with the
reported usage block. -/
inductive ModelOutcome where
  | throwsErr (name : String) (status : Option Nat)
  | returns (parsed : Option Json) (usage : Option OpenAiUsage)

/-- Port of the tokensUsed computation: total_tokens when present, else the
sum of completion and prompt tokens with ?? 0 fallbacks; null when the
response carried no usage block. -/
def tokensUsedOf : Option OpenAiUsage → Option ℚ
  | none => none
  | some u =>
      match u.total_tokens with
      | some t => some t
      | none => some (u.completion_tokens.getD 0 + u.prompt_tokens.getD 0)

/-- Status chosen by the outer catch: a thrown 401 or 403 is passed through,
anything else becomes 500. -/
def catchStatus : Option Nat → Nat
  | some 401 => 401
  | some 403 => 403
  | _ => 500

/-- The completed inspection row built by the success path: hazardCount is
the length of the validated hazards list, riskScore and safetyGrade are read
from the validated overallAssessment, both image URL columns receive the
final image URL. -/
def mkCompletedInspection (uid url : String) (a : AnalysisResult) : InspectionRow :=
  { userId := uid
    imageUrl := url
    originalImageUrl := url
    hazardCount := a.hazards.length
    riskScore := a.overallAssessment.riskScore
    safetyGrade := a.overallAssessment.safetyGrade
    analysisResults := a
    processingStatus := "completed" }

def successUsageLog (uid : String) (tokens : Option ℚ) (respMs : Nat) : UsageLogRow :=
  { userId := uid
    endpoint := "/api/inspections/analyze"
    tokensUsed := tokens
    apiCost := none
    responseTime := respMs
    success := true
    errorType := none }

def failureUsageLog (uid errName : String) (respMs : Nat) : UsageLogRow :=
  { userId := uid
    endpoint := "/api/inspections/analyze"
    tokensUsed := none
    apiCost := none
    responseTime := respMs
    success := false
    errorType := some errName }

/-- Observable outcome of one analyze request: HTTP status, rows inserted into
inspections and usageLogs during the request, the user row after the request,
whether the OpenAI call was issued, and whether the compress-and-upload step
was entered. -/
structure AnalyzeOutcome where
  status : Nat
  inspections : List InspectionRow
  usageLogs : List UsageLogRow
  finalUser : UserRow
  modelCalled : Bool
  reachedUpload : Bool
  deriving DecidableEq, Repr

/-- The handler from the OpenAI call onward: a thrown call lands in the outer
catch which best-effort inserts a failure usage log; a response whose text
fails JSON.parse or zod validation is answered 502 by the inner catch, with no
inspection row and no usage log; a validated response inserts the completed
inspection, increments the user counters, inserts the success usage log and
answers 200. -/
def analyzeModelStage (respMs : Nat) (appUser : UserRow) (now : UDate)
    (url : String) (reached : Bool) (model : ModelOutcome) : AnalyzeOutcome :=
  match model with
  | .throwsErr n st =>
      { status := catchStatus st, inspections := [],
        usageLogs := [failureUsageLog appUser.id n respMs],
        finalUser := appUser, modelCalled := true, reachedUpload := reached }
  | .returns parsed usage =>
      match parsed.bind validateAnalysisResult with
      | none =>
          { status := 502, inspections := [], usageLogs := [],
            finalUser := appUser, modelCalled := true, reachedUpload := reached }
      | some a =>
          { status := 200
            inspections := [mkCompletedInspection appUser.id url a]
            usageLogs := [successUsageLog appUser.id (tokensUsedOf usage) respMs]
            finalUser := (incrementUserInspectionCounters (some appUser) now).getD appUser
            modelCalled := true
            reachedUpload := reached }

/-- Outcome of a request rejected before the compress, upload and model steps:
the given status, no rows written, the user row untouched. -/
def rejectedOutcome (appUser : UserRow) (st : Nat) : AnalyzeOutcome :=
  { status := st, inspections := [], usageLogs := [], finalUser := appUser,
    modelCalled := false, reachedUpload := false }

/-- Outcome when the compress-and-upload step throws: the outer catch inserts
a failure usage log and maps the thrown status through catchStatus. -/
def uploadFailOutcome (appUser : UserRow) (n : String) (st : Option Nat)
    (respMs : Nat) : AnalyzeOutcome :=
  { status := catchStatus st, inspections := [],
    usageLogs := [failureUsageLog appUser.id n respMs],
    finalUser := appUser, modelCalled := false, reachedUpload := true }

/-- The handler after the quota check admitted the request: a present imageUrl
is used directly; otherwise base64 imageData is size-guarded with
Math.floor(length times 0.75) compared against 8000000, then compressed and
uploaded; with neither field the handler answers 400. -/
def analyzeAdmitted (respMs : Nat) (appUser : UserRow) (now : UDate)
    (p : AnalyzePayload) (b64 : B64Outcome) (model : ModelOutcome) : AnalyzeOutcome :=
  match p.imageUrl with
  | some u => analyzeModelStage respMs appUser now u false model
  | none =>
      match p.imageData with
      | some s =>
          if 8000000 < s.length * 3 / 4 then rejectedOutcome appUser 413
          else
            match b64 with
            | .throwsErr n st => uploadFailOutcome appUser n st respMs
            | .ok url => analyzeModelStage respMs appUser now url true model
      | none => rejectedOutcome appUser 400

/-- Port of the POST /api/inspections/analyze handler: missing auth answers
401, a failed safeParse answers 400, a failed quota check answers 429 with no
side effect, and an admitted request proceeds through analyzeAdmitted.
appUser is the row returned by getOrCreateAppUserByClerkId; respMs the elapsed
milliseconds recorded in the usage log. -/
def analyzeHandler (limit : Nat) (isUrl : String → Bool) (now : UDate) (respMs : Nat)
    (auth : Option String) (appUser : UserRow) (body : AnalyzeBody)
    (b64 : B64Outcome) (model : ModelOutcome) : AnalyzeOutcome :=
  match auth with
  | none => rejectedOutcome appUser 401
  | some _ =>
      match analyzePayloadParse isUrl body with
      | none => rejectedOutcome appUser 400
      | some p =>
          if !canRunAnotherInspection limit (some appUser) now then
            rejectedOutcome appUser 429
          else analyzeAdmitted respMs appUser now p b64 model

/-- Length of the canonical padded base64 encoding of n bytes: 4 characters
per 3-byte group. -/
def b64EncLen (n : Nat) : Nat := 4 * ((n + 2) / 3)

/-! The image normalizer (src/lib/image.ts, compressToWebP) over a model of
the sharp library: a decoded raster has stored width and height, and an EXIF
orientation flag telling whether a 90 or 270 degree auto-rotation transposes
the displayed dimensions.  Per the sharp documentation, metadata() reports the
stored dimensions without applying EXIF orientation, while rotate() applies
the orientation to the pixel data before the subsequent resize; resize with a
single dimension preserves the aspect ratio of the (rotated) image, rounding
the free dimension to the nearest integer with a minimum of 1. -/

structure RawImage where
  width : Nat
  height : Nat
  exifTransposed : Bool
  deriving DecidableEq, Repr

structure WebpImage where
  width : Nat
  height : Nat
  deriving DecidableEq, Repr

/-- The free dimension of an aspect-preserving resize: other times target over
fixed, rounded half away from zero, at least 1. -/
def scaleDim (other target fixed : Nat) : Nat :=
  max 1 ((2 * other * target + fixed) / (2 * fixed))

/-- Port of compressToWebP: the branch on meta.width and meta.height uses the
stored (pre-orientation) dimensions, while the resize acts on the rotated
image.  When either stored dimension is unavailable (modelled as 0) the
default branch resizes by width. -/
def compressToWebP (img : RawImage) (maxSide : Nat := 1600) : WebpImage :=
  let dispW := if img.exifTransposed then img.height else img.width
  let dispH := if img.exifTransposed then img.width else img.height
  if img.width ≠ 0 ∧ img.height ≠ 0 then
    if img.height ≤ img.width then
      { width := maxSide, height := scaleDim dispH maxSide dispW }
    else
      { width := scaleDim dispW maxSide dispH, height := maxSide }
  else
    { width := maxSide, height := scaleDim dispH maxSide dispW }

/-! The GET /api/inspections/list handler (routes/inspections.ts). -/

/-- A query-string parameter after Number coercion: absent (the ?? default
applies), NaN (the string did not parse as a number), or a numeric value. -/
inductive QueryParam where
  | absent
  | nanVal
  | num (q : ℚ)
  deriving Repr

/-- Number(req.query.x ?? dflt): the default string parses to dflt; NaN is
modelled as none. -/
def numberParam (dflt : ℚ) : QueryParam → Option ℚ
  | .absent => some dflt
  | .nanVal => none
  | .num q => some q

/-- Math.max with a NaN-propagating second argument, as in ECMAScript. -/
def jsMax (a : ℚ) : Option ℚ → Option ℚ
  | none => none
  | some b => some (max a b)

/-- Math.min with a NaN-propagating second argument. -/
def jsMin (a : ℚ) : Option ℚ → Option ℚ
  | none => none
  | some b => some (min a b)

/-- The page computation of the list handler: Math.max(1, Number(page ?? 1)). -/
def listPage (pq : QueryParam) : Option ℚ := jsMax 1 (numberParam 1 pq)

/-- The pageSize computation: Math.min(50, Math.max(1, Number(pageSize ?? 20))). -/
def listPageSize (psq : QueryParam) : Option ℚ := jsMin 50 (jsMax 1 (numberParam 20 psq))

/-- One stored inspections row as seen by the list query: owner and creation
instant (a linear timestamp suffices for ORDER BY createdAt). -/
structure DbInspection where
  rowId : Nat
  userId : String
  createdAt : Int
  deriving DecidableEq, Repr

/-- Insertion into a list sorted by descending createdAt, stable. -/
def insertDesc (x : DbInspection) : List DbInspection → List DbInspection
  | [] => [x]
  | y :: ys => if y.createdAt < x.createdAt then x :: y :: ys else y :: insertDesc x ys

/-- Stable sort by descending createdAt, modelling ORDER BY created_at DESC. -/
def sortDesc : List DbInspection → List DbInspection
  | [] => []
  | x :: xs => insertDesc x (sortDesc xs)

/-- A non-negative rational handed to the LIMIT clause, rounded to an integer
row count half away from zero, as the relational store casts numerics. -/
def pgCount (q : ℚ) : Nat := (2 * q.num.toNat + q.den) / (2 * q.den)

/-- A non-negative rational handed to the OFFSET clause, truncated. -/
def pgSkip (q : ℚ) : Nat := q.num.toNat / q.den

/-- The list query: rows of the calling user, ordered by descending creation
time, windowed by OFFSET then LIMIT. -/
def listQuery (rows : List DbInspection) (uid : String) (lim skip : Nat) :
    List DbInspection :=
  (((sortDesc (rows.filter (fun r => r.userId == uid)))).drop skip).take lim

/-- Observable outcome of one list request. -/
structure ListOutcome where
  status : Nat
  inspections : List DbInspection
  deriving DecidableEq, Repr

/-- Port of the GET /api/inspections/list handler: missing auth answers 401;
page and pageSize are coerced with Math.max and Math.min; the query returns
the windowed rows of the calling user.  When either computation yields NaN the
SQL query receives NaN and fails; this is modelled as a 500 response with no
rows. -/
def listHandler (rows : List DbInspection) (auth : Option String) (appUser : UserRow)
    (pq psq : QueryParam) : ListOutcome :=
  match auth with
  | none => { status := 401, inspections := [] }
  | some _ =>
      match listPage pq, listPageSize psq with
      | some p, some ps =>
          { status := 200
            inspections := listQuery rows appUser.id (pgCount ps) (pgSkip ((p - 1) * ps)) }
      | _, _ => { status := 500, inspections := [] }

/-! Concrete inputs used by witnesses and counterexamples. -/

/-- October 2026 in UTC year-month form. -/
def wDate : UDate := ⟨2026, 9⟩

/-- September 2026, the month before wDate. -/
def wDatePrev : UDate := ⟨2026, 8⟩

def wUserFresh : UserRow := ⟨"user-1", some 5, some 3, some wDate⟩

def wUserAtLimit : UserRow := ⟨"user-2", some 200, some 100, some wDate⟩

def wUserPrevAtLimit : UserRow := ⟨"user-3", some 120, some 100, some wDatePrev⟩

def wUrl : String := "https://example.com/pic.jpg"

def wIsUrl : String → Bool := fun s => s == wUrl

def wBodyUrl : AnalyzeBody := ⟨some wUrl, none, none⟩

def wBodyBoth : AnalyzeBody := ⟨some wUrl, some "aGVsbG8=", none⟩

def wBodyNeither : AnalyzeBody := ⟨none, none, none⟩

def wB64 : B64Outcome := .ok "https://blob.example.com/x.webp"

def wUsage : OpenAiUsage := ⟨some 1234, none, none⟩

def wGoodHazardJson : Json := Json.obj
  [("id", Json.str "h1"),
   ("description", Json.str "Missing helmet"),
   ("location", Json.str "north corner"),
   ("category", Json.str "PPE"),
   ("severity", Json.str "High"),
   ("immediateSolutions", Json.arr [Json.str "Provide helmets"]),
   ("longTermSolutions", Json.arr [Json.str "Schedule training"]),
   ("priority", Json.num 7)]

def wGoodJson : Json := Json.obj
  [("hazards", Json.arr [wGoodHazardJson]),
   ("overallAssessment", Json.obj
     [("riskScore", Json.num 55),
      ("safetyGrade", Json.str "C"),
      ("topPriorities", Json.arr [Json.str "Helmets"])]),
   ("metadata", Json.obj
     [("analysisTime", Json.num 3),
      ("tokensUsed", Json.num 1234),
      ("confidence", Json.num 90)])]

/-- The validated form of wGoodJson. -/
def wGoodAnalysis : AnalysisResult :=
  { hazards := [{ id := "h1", description := "Missing helmet",
                  location := "north corner",
                  category := .PPE, severity := .High,
                  immediateSolutions := ["Provide helmets"],
                  longTermSolutions := ["Schedule training"],
                  estimatedCost := none, timeToImplement := none, priority := 7 }]
    overallAssessment := { riskScore := 55, safetyGrade := .C,
                           topPriorities := ["Helmets"], complianceStandards := none }
    metadata := { analysisTime := 3, tokensUsed := 1234, confidence := 90 } }

/-- A JSON object missing the required overallAssessment key. -/
def wBadJson : Json := Json.obj
  [("hazards", Json.arr []),
   ("metadata", Json.obj
     [("analysisTime", Json.num 3),
      ("tokensUsed", Json.num 1234),
      ("confidence", Json.num 90)])]

def wModelGood : ModelOutcome := .returns (some wGoodJson) (some wUsage)

def wModelBad : ModelOutcome := .returns (some wBadJson) (some wUsage)

def wModelNotJson : ModelOutcome := .returns none (some wUsage)

def wModelThrows : ModelOutcome := .throwsErr "APIConnectionError" none

/-- A base64 payload of 12000000 characters, the canonical encoding of
9000000 bytes. -/
def wBigData : String := String.mk (List.replicate 12000000 'A')

def wBodyBigNoUrl : AnalyzeBody := ⟨none, some wBigData, none⟩

def wBodyBigBoth : AnalyzeBody := ⟨some wUrl, some wBigData, none⟩

/-! Helper lemmas shared by the claim theorems. -/

theorem canRun_eq (limit : Nat) (u : UserRow) (now : UDate) :
    canRunAnotherInspection limit (some u) now = decide (effectiveMonthly u now < limit) := by
  simp [canRunAnotherInspection, effectiveMonthly]

theorem catchStatus_cases (st : Option Nat) :
    catchStatus st = 401 ∨ catchStatus st = 403 ∨ catchStatus st = 500 := by
  unfold catchStatus
  split
  · exact Or.inl rfl
  · exact Or.inr (Or.inl rfl)
  · exact Or.inr (Or.inr rfl)

theorem increment_getD_spec (u : UserRow) (now : UDate) :
    (incrementUserInspectionCounters (some u) now).getD u =
      { u with
        inspectionCount := some (u.inspectionCount.getD 0 + 1)
        monthlyInspectionCount := some (effectiveMonthly u now + 1)
        lastResetDate :=
          some (if sameMonth now (u.lastResetDate.getD now) then u.lastResetDate.getD now
                else now) } := by
  by_cases h : sameMonth now (u.lastResetDate.getD now) = true
  · simp [incrementUserInspectionCounters, effectiveMonthly, h]
  · rw [Bool.not_eq_true] at h
    simp [incrementUserInspectionCounters, effectiveMonthly, h]

theorem modelStage_cases (respMs : Nat) (appUser : UserRow) (now : UDate)
    (url : String) (reached : Bool) (model : ModelOutcome) :
    (∃ n st, model = .throwsErr n st ∧
       analyzeModelStage respMs appUser now url reached model =
         { status := catchStatus st, inspections := [],
           usageLogs := [failureUsageLog appUser.id n respMs],
           finalUser := appUser, modelCalled := true, reachedUpload := reached })
    ∨ (∃ parsed usage, model = .returns parsed usage ∧
         parsed.bind validateAnalysisResult = none ∧
         analyzeModelStage respMs appUser now url reached model =
           { status := 502, inspections := [], usageLogs := [],
             finalUser := appUser, modelCalled := true, reachedUpload := reached })
    ∨ (∃ parsed usage a, model = .returns parsed usage ∧
         parsed.bind validateAnalysisResult = some a ∧
         analyzeModelStage respMs appUser now url reached model =
           { status := 200,
             inspections := [mkCompletedInspection appUser.id url a],
             usageLogs := [successUsageLog appUser.id (tokensUsedOf usage) respMs],
             finalUser := (incrementUserInspectionCounters (some appUser) now).getD appUser,
             modelCalled := true, reachedUpload := reached }) := by
  cases model with
  | throwsErr n st => exact Or.inl ⟨n, st, rfl, rfl⟩
  | returns parsed usage =>
      cases h : parsed.bind validateAnalysisResult with
      | none =>
          exact Or.inr (Or.inl ⟨parsed, usage, rfl, h, by simp [analyzeModelStage, h]⟩)
      | some a =>
          exact Or.inr (Or.inr ⟨parsed, usage, a, rfl, h, by simp [analyzeModelStage, h]⟩)

theorem admitted_cases (respMs : Nat) (appUser : UserRow) (now : UDate)
    (p : AnalyzePayload) (b64 : B64Outcome) (model : ModelOutcome) :
    (∃ st, (st = 413 ∨ st = 400) ∧
       analyzeAdmitted respMs appUser now p b64 model = rejectedOutcome appUser st)
    ∨ (∃ n st, analyzeAdmitted respMs appUser now p b64 model =
         uploadFailOutcome appUser n st respMs)
    ∨ (∃ url reached, analyzeAdmitted respMs appUser now p b64 model =
         analyzeModelStage respMs appUser now url reached model) := by
  obtain ⟨pu, pd, pt⟩ := p
  cases pu with
  | some u => exact Or.inr (Or.inr ⟨u, false, rfl⟩)
  | none =>
      cases pd with
      | none => exact Or.inl ⟨400, Or.inr rfl, rfl⟩
      | some s =>
          by_cases hg : 8000000 < s.length * 3 / 4
          · exact Or.inl ⟨413, Or.inl rfl, by simp [analyzeAdmitted, hg]⟩
          · cases b64 with
            | throwsErr n st =>
                exact Or.inr (Or.inl ⟨n, st, by simp [analyzeAdmitted, hg]⟩)
            | ok url =>
                exact Or.inr (Or.inr ⟨url, true, by simp [analyzeAdmitted, hg]⟩)

theorem handler_cases (limit : Nat) (isUrl : String → Bool) (now : UDate) (respMs : Nat)
    (auth : Option String) (appUser : UserRow) (body : AnalyzeBody)
    (b64 : B64Outcome) (model : ModelOutcome) :
    (∃ st, analyzeHandler limit isUrl now respMs auth appUser body b64 model =
       rejectedOutcome appUser st)
    ∨ (∃ n st, analyzeHandler limit isUrl now respMs auth appUser body b64 model =
         uploadFailOutcome appUser n st respMs)
    ∨ (∃ url reached, analyzeHandler limit isUrl now respMs auth appUser body b64 model =
         analyzeModelStage respMs appUser now url reached model) := by
  unfold analyzeHandler
  cases auth with
  | none => exact Or.inl ⟨401, rfl⟩
  | some cid =>
      cases analyzePayloadParse isUrl body with
      | none => exact Or.inl ⟨400, rfl⟩
      | some p =>
          by_cases hq : canRunAnotherInspection limit (some appUser) now
          · simp only [hq, Bool.not_true, Bool.false_eq_true, if_false]
            rcases admitted_cases respMs appUser now p b64 model with
              ⟨st, _, heq⟩ | h | h
            · exact Or.inl ⟨st, heq⟩
            · exact Or.inr (Or.inl h)
            · exact Or.inr (Or.inr h)
          · rw [Bool.not_eq_true] at hq
            simp only [hq, Bool.not_false, if_true]
            exact Or.inl ⟨429, rfl⟩

theorem modelStage_reached (respMs : Nat) (appUser : UserRow) (now : UDate)
    (url : String) (reached : Bool) (model : ModelOutcome) :
    (analyzeModelStage respMs appUser now url reached model).reachedUpload = reached := by
  rcases modelStage_cases respMs appUser now url reached model with
    ⟨n, st, _, heq⟩ | ⟨p2, u2, _, _, heq⟩ | ⟨p2, u2, a, _, _, heq⟩ <;> rw [heq]

/-- When the body carries a valid imageUrl and the quota admits, the handler
ignores imageData entirely (no size guard, no compress, no upload) and goes
straight to the model stage with the provided URL. -/
theorem handler_url_precedence (limit : Nat) (isUrl : String → Bool) (now : UDate)
    (respMs : Nat) (cid : String) (appUser : UserRow) (body : AnalyzeBody)
    (b64 : B64Outcome) (model : ModelOutcome) (u : String)
    (hu : body.imageUrl = some u) (hok : isUrl u = true)
    (hdata : ∀ d, body.imageData = some d → 1 ≤ d.length)
    (hq : canRunAnotherInspection limit (some appUser) now = true) :
    analyzeHandler limit isUrl now respMs (some cid) appUser body b64 model =
      analyzeModelStage respMs appUser now u false model := by
  have hparse : analyzePayloadParse isUrl body =
      some { imageUrl := some u, imageData := body.imageData,
             imageType := body.imageType.getD "image/jpeg" } := by
    unfold analyzePayloadParse
    rw [hu]
    cases hd : body.imageData with
    | none => simp [hok]
    | some d => simp [hok, hdata d hd]
  unfold analyzeHandler
  rw [hparse, hq]
  simp [analyzeAdmitted]

theorem scaleDim_le (h w m : Nat) (hw : 1 ≤ w) (hhw : h ≤ w) (hm : 1 ≤ m) :
    scaleDim h m w ≤ m := by
  unfold scaleDim
  apply max_le hm
  have h1 : 2 * h * m ≤ 2 * w * m := Nat.mul_le_mul_right m (by omega)
  have h2 : 2 * h * m + w < 2 * w * (m + 1) := by
    have h3 : 2 * w * (m + 1) = 2 * w * m + 2 * w := by ring
    omega
  have h4 : (2 * h * m + w) / (2 * w) < m + 1 := by
    rw [Nat.div_lt_iff_lt_mul (by omega : 0 < 2 * w)]
    calc 2 * h * m + w < 2 * w * (m + 1) := h2
    _ = (m + 1) * (2 * w) := by ring
  omega

theorem one_le_scaleDim (h m w : Nat) : 1 ≤ scaleDim h m w := le_max_left 1 _

theorem mem_insertDesc {y x : DbInspection} {l : List DbInspection} :
    y ∈ insertDesc x l ↔ y = x ∨ y ∈ l := by
  induction l with
  | nil => simp [insertDesc]
  | cons a as ih =>
      by_cases h : a.createdAt < x.createdAt
      · simp [insertDesc, h]
      · simp only [insertDesc, h, if_false, List.mem_cons, ih]
        tauto

theorem mem_sortDesc {y : DbInspection} {l : List DbInspection} :
    y ∈ sortDesc l ↔ y ∈ l := by
  induction l with
  | nil => simp [sortDesc]
  | cons a as ih => simp [sortDesc, mem_insertDesc, ih]

theorem pgCount_le_fifty (q : ℚ) (h : q ≤ 50) : pgCount q ≤ 50 := by
  have hnum : q.num ≤ 50 * (q.den : ℤ) := by
    rw [Rat.le_def] at h
    simpa using h
  have hden : 1 ≤ q.den := q.den_pos
  have ht : q.num.toNat ≤ 50 * q.den := by omega
  unfold pgCount
  rw [Nat.div_le_iff_le_mul_add_pred (by omega : 0 < 2 * q.den)]
  omega

/-- Claim C4: for a user whose lastResetDate lies in a prior calendar month
and whose monthly count equals the (positive) configured limit, the admission
check of a submission in the current month succeeds: sameMonth compares
calendar year and month of the current time against the stored reset
timestamp and, when they differ, the effective count is taken as zero with no
separate reset pass. -/
theorem C4_month_boundary_reset (limit : Nat) (u : UserRow) (now reset : UDate)
    (hreset : u.lastResetDate = some reset) (hprior : priorMonth reset now)
    (hcount : u.monthlyInspectionCount = some limit) (hpos : 0 < limit) :
    canRunAnotherInspection limit (some u) now = true ∧ effectiveMonthly u now = 0 := by
  have hsm : sameMonth now reset = false := by
    simp only [sameMonth, Bool.and_eq_false_iff, beq_eq_false_iff_ne, ne_eq]
    rcases hprior with h | ⟨h1, h2⟩
    · exact Or.inl (by omega)
    · exact Or.inr (by omega)
  have heff : effectiveMonthly u now = 0 := by
    simp [effectiveMonthly, hreset, hsm]
  refine ⟨?_, heff⟩
  rw [canRun_eq, heff]
  simpa using hpos

/-- Witness for C4 at a concrete input: a user at the default limit of 100
whose reset timestamp is September 2026 submits in October 2026 and is
admitted with effective count zero. -/
theorem C4_witness :
    wUserPrevAtLimit.lastResetDate = some wDatePrev ∧ priorMonth wDatePrev wDate ∧
    wUserPrevAtLimit.monthlyInspectionCount = some 100 ∧ 0 < 100 ∧
    (canRunAnotherInspection 100 (some wUserPrevAtLimit) wDate = true ∧
     effectiveMonthly wUserPrevAtLimit wDate = 0) :=
  ⟨rfl, by decide, rfl, by decide,
   C4_month_boundary_reset 100 wUserPrevAtLimit wDate wDatePrev rfl (by decide) rfl
     (by decide)⟩

/-- Claim C1: for an authenticated analyze request whose body passes payload
validation, if the effective monthly count (the stored monthly count when
lastResetDate is in the current calendar month, else 0) has reached the limit,
the request is answered 429 with no row written and no counter change; below
the limit the request is never answered 429, the lifetime and monthly counters
are incremented exactly once when the pipeline reaches terminal success
(HTTP 200), and are left untouched on every non-200 outcome. -/
theorem C1_quota_admission_and_increment (limit : Nat) (isUrl : String → Bool)
    (now : UDate) (respMs : Nat) (cid : String) (appUser : UserRow)
    (body : AnalyzeBody) (b64 : B64Outcome) (model : ModelOutcome)
    (r : AnalyzeOutcome)
    (hbody : (analyzePayloadParse isUrl body).isSome = true)
    (hr : r = analyzeHandler limit isUrl now respMs (some cid) appUser body b64 model) :
    (limit ≤ effectiveMonthly appUser now → r = rejectedOutcome appUser 429) ∧
    (effectiveMonthly appUser now < limit →
       r.status ≠ 429 ∧
       (r.status = 200 →
          r.finalUser.monthlyInspectionCount = some (effectiveMonthly appUser now + 1) ∧
          r.finalUser.inspectionCount = some (appUser.inspectionCount.getD 0 + 1) ∧
          r.inspections.length = 1) ∧
       (r.status ≠ 200 → r.finalUser = appUser)) := by
  obtain ⟨p, hp⟩ := Option.isSome_iff_exists.mp hbody
  subst hr
  constructor
  · intro hge
    have hcr : canRunAnotherInspection limit (some appUser) now = false := by
      rw [canRun_eq]
      simpa using Nat.not_lt.mpr hge
    simp [analyzeHandler, hp, hcr]
  · intro hlt
    have hcr : canRunAnotherInspection limit (some appUser) now = true := by
      rw [canRun_eq]
      simpa using hlt
    have hadm : analyzeHandler limit isUrl now respMs (some cid) appUser body b64 model
        = analyzeAdmitted respMs appUser now p b64 model := by
      simp [analyzeHandler, hp, hcr]
    rw [hadm]
    rcases admitted_cases respMs appUser now p b64 model with
      ⟨st, hst, heq⟩ | ⟨n, st, heq⟩ | ⟨url, reached, heq⟩
    · rw [heq]
      refine ⟨by simp [rejectedOutcome]; omega, ?_, fun _ => rfl⟩
      intro h200
      simp only [rejectedOutcome] at h200
      omega
    · rw [heq]
      rcases catchStatus_cases st with h | h | h <;>
        refine ⟨by simp [uploadFailOutcome, h], ?_, fun _ => rfl⟩ <;>
        · intro h200
          simp only [uploadFailOutcome, h] at h200
          omega
    · rw [heq]
      rcases modelStage_cases respMs appUser now url reached model with
        ⟨n, st, _, heq2⟩ | ⟨parsed, usage, _, hv, heq2⟩ | ⟨parsed, usage, a, _, hv, heq2⟩
      · rw [heq2]
        rcases catchStatus_cases st with h | h | h <;>
          refine ⟨by simp [h], ?_, fun _ => rfl⟩ <;>
          · intro h200
            simp only [h] at h200
            omega
      · rw [heq2]
        refine ⟨by simp, ?_, fun _ => rfl⟩
        intro h200
        simp at h200
      · rw [heq2]
        refine ⟨by simp, ?_, fun hne => absurd rfl hne⟩
        intro _
        rw [increment_getD_spec]
        exact ⟨rfl, rfl, rfl⟩

/-- Witness for C1 at a concrete input: a user with monthly count 3 and limit
100 submits a URL-image request, the model answers a valid payload, the
request succeeds with status 200, and both counters advance by exactly one. -/
theorem C1_witness :
    (analyzePayloadParse wIsUrl wBodyUrl).isSome = true ∧
    ((100 ≤ effectiveMonthly wUserFresh wDate →
        analyzeHandler 100 wIsUrl wDate 250 (some "ck-1") wUserFresh wBodyUrl wB64 wModelGood
          = rejectedOutcome wUserFresh 429) ∧
     (effectiveMonthly wUserFresh wDate < 100 →
        (analyzeHandler 100 wIsUrl wDate 250 (some "ck-1") wUserFresh wBodyUrl wB64
            wModelGood).status ≠ 429 ∧
        ((analyzeHandler 100 wIsUrl wDate 250 (some "ck-1") wUserFresh wBodyUrl wB64
            wModelGood).status = 200 →
           (analyzeHandler 100 wIsUrl wDate 250 (some "ck-1") wUserFresh wBodyUrl wB64
               wModelGood).finalUser.monthlyInspectionCount
             = some (effectiveMonthly wUserFresh wDate + 1) ∧
           (analyzeHandler 100 wIsUrl wDate 250 (some "ck-1") wUserFresh wBodyUrl wB64
               wModelGood).finalUser.inspectionCount
             = some (wUserFresh.inspectionCount.getD 0 + 1) ∧
           (analyzeHandler 100 wIsUrl wDate 250 (some "ck-1") wUserFresh wBodyUrl wB64
               wModelGood).inspections.length = 1) ∧
        ((analyzeHandler 100 wIsUrl wDate 250 (some "ck-1") wUserFresh wBodyUrl wB64
            wModelGood).status ≠ 200 →
           (analyzeHandler 100 wIsUrl wDate 250 (some "ck-1") wUserFresh wBodyUrl wB64
               wModelGood).finalUser = wUserFresh))) :=
  ⟨by decide,
   C1_quota_admission_and_increment 100 wIsUrl wDate 250 "ck-1" wUserFresh wBodyUrl wB64
     wModelGood _ (by decide) rfl⟩

/-- Claim C5: every inspection row persisted by the analyze handler carries a
hazardCount equal to the length of the hazards list of its stored analysis
payload: the count is derived from the validated list itself, never taken from
the model claims. -/
theorem C5_hazard_count_invariant (limit : Nat) (isUrl : String → Bool) (now : UDate)
    (respMs : Nat) (auth : Option String) (appUser : UserRow) (body : AnalyzeBody)
    (b64 : B64Outcome) (model : ModelOutcome) (row : InspectionRow)
    (hrow : row ∈ (analyzeHandler limit isUrl now respMs auth appUser body b64
        model).inspections) :
    row.hazardCount = row.analysisResults.hazards.length := by
  rcases handler_cases limit isUrl now respMs auth appUser body b64 model with
    ⟨st, heq⟩ | ⟨n, st, heq⟩ | ⟨url, reached, heq⟩
  · rw [heq] at hrow
    simp [rejectedOutcome] at hrow
  · rw [heq] at hrow
    simp [uploadFailOutcome] at hrow
  · rw [heq] at hrow
    rcases modelStage_cases respMs appUser now url reached model with
      ⟨n, st, _, heq2⟩ | ⟨parsed, usage, _, hv, heq2⟩ | ⟨parsed, usage, a, _, hv, heq2⟩
    · rw [heq2] at hrow
      simp at hrow
    · rw [heq2] at hrow
      simp at hrow
    · rw [heq2] at hrow
      simp at hrow
      subst hrow
      rfl

/-- Witness for C5 at a concrete input: the completed inspection row of a
successful run is a member of the inserted rows and satisfies the invariant. -/
theorem C5_witness :
    mkCompletedInspection wUserFresh.id wUrl wGoodAnalysis
      ∈ (analyzeHandler 100 wIsUrl wDate 250 (some "ck-1") wUserFresh wBodyUrl wB64
          wModelGood).inspections ∧
    (mkCompletedInspection wUserFresh.id wUrl wGoodAnalysis).hazardCount
      = (mkCompletedInspection wUserFresh.id wUrl
          wGoodAnalysis).analysisResults.hazards.length :=
  ⟨by decide,
   C5_hazard_count_invariant 100 wIsUrl wDate 250 (some "ck-1") wUserFresh wBodyUrl wB64
     wModelGood (mkCompletedInspection wUserFresh.id wUrl wGoodAnalysis) (by decide)⟩

/-- Claim C6: whenever the model call was issued and returned, and the
response text is malformed (not valid JSON, or JSON that fails the
AnalysisResult schema, for example missing overallAssessment), the handler
answers 502 and no inspection row with status completed is persisted for the
attempt. -/
theorem C6_invalid_output_never_completed (limit : Nat) (isUrl : String → Bool)
    (now : UDate) (respMs : Nat) (auth : Option String) (appUser : UserRow)
    (body : AnalyzeBody) (b64 : B64Outcome) (model : ModelOutcome)
    (parsed : Option Json) (usage : Option OpenAiUsage) (r : AnalyzeOutcome)
    (hr : r = analyzeHandler limit isUrl now respMs auth appUser body b64 model)
    (hmodel : model = ModelOutcome.returns parsed usage)
    (hcalled : r.modelCalled = true)
    (hbad : parsed.bind validateAnalysisResult = none) :
    r.status = 502 ∧ ∀ row ∈ r.inspections, row.processingStatus ≠ "completed" := by
  subst hr
  rcases handler_cases limit isUrl now respMs auth appUser body b64 model with
    ⟨st, heq⟩ | ⟨n, st, heq⟩ | ⟨url, reached, heq⟩
  · rw [heq] at hcalled
    simp [rejectedOutcome] at hcalled
  · rw [heq] at hcalled
    simp [uploadFailOutcome] at hcalled
  · rw [heq]
    rcases modelStage_cases respMs appUser now url reached model with
      ⟨n, st, hm, heq2⟩ | ⟨parsed2, usage2, hm, hv, heq2⟩ |
      ⟨parsed2, usage2, a, hm, hv, heq2⟩
    · rw [hmodel] at hm
      exact absurd hm (by simp)
    · rw [heq2]
      exact ⟨rfl, by simp⟩
    · rw [hmodel] at hm
      injection hm with h1 h2
      subst h1
      rw [hbad] at hv
      exact absurd hv (by simp)

/-- Witness for C6 at a concrete input: the model returns JSON without the
overallAssessment key; the run answers 502 and persists no completed row. -/
theorem C6_witness :
    wModelBad = ModelOutcome.returns (some wBadJson) (some wUsage) ∧
    (analyzeHandler 100 wIsUrl wDate 250 (some "ck-1") wUserFresh wBodyUrl wB64
        wModelBad).modelCalled = true ∧
    (some wBadJson).bind validateAnalysisResult = none ∧
    ((analyzeHandler 100 wIsUrl wDate 250 (some "ck-1") wUserFresh wBodyUrl wB64
        wModelBad).status = 502 ∧
     ∀ row ∈ (analyzeHandler 100 wIsUrl wDate 250 (some "ck-1") wUserFresh wBodyUrl wB64
        wModelBad).inspections, row.processingStatus ≠ "completed") :=
  ⟨rfl, by decide, by decide,
   C6_invalid_output_never_completed 100 wIsUrl wDate 250 (some "ck-1") wUserFresh
     wBodyUrl wB64 wModelBad (some wBadJson) (some wUsage) _ rfl rfl (by decide)
     (by decide)⟩

/-- Counterexample for C2: a run in which the model output fails schema
validation (overallAssessment missing) is answered 502, yet the handler
inserts no inspection row at all — in particular no failed-status row carrying
the truncated error message, contrary to the claim; the diagnostic goes only
to the server console. -/
theorem C2_counterexample :
    (analyzeHandler 100 wIsUrl wDate 250 (some "ck-1") wUserFresh wBodyUrl wB64
        wModelBad).status = 502 ∧
    (analyzeHandler 100 wIsUrl wDate 250 (some "ck-1") wUserFresh wBodyUrl wB64
        wModelBad).inspections = [] := by
  decide

/-- Claim C2 amended: when the model call succeeds but its text fails JSON
parsing or schema validation, the handler responds 502 without persisting any
inspection row (failed or otherwise), without writing a usage log row, and
without touching the user row; the original error is only written to the
server console, truncated to 500 characters. -/
theorem C2_invalid_output_records_nothing (limit : Nat) (isUrl : String → Bool)
    (now : UDate) (respMs : Nat) (auth : Option String) (appUser : UserRow)
    (body : AnalyzeBody) (b64 : B64Outcome) (model : ModelOutcome)
    (parsed : Option Json) (usage : Option OpenAiUsage) (r : AnalyzeOutcome)
    (hr : r = analyzeHandler limit isUrl now respMs auth appUser body b64 model)
    (hmodel : model = ModelOutcome.returns parsed usage)
    (hcalled : r.modelCalled = true)
    (hbad : parsed.bind validateAnalysisResult = none) :
    r.status = 502 ∧ r.inspections = [] ∧ r.usageLogs = [] ∧ r.finalUser = appUser := by
  subst hr
  rcases handler_cases limit isUrl now respMs auth appUser body b64 model with
    ⟨st, heq⟩ | ⟨n, st, heq⟩ | ⟨url, reached, heq⟩
  · rw [heq] at hcalled
    simp [rejectedOutcome] at hcalled
  · rw [heq] at hcalled
    simp [uploadFailOutcome] at hcalled
  · rw [heq]
    rcases modelStage_cases respMs appUser now url reached model with
      ⟨n, st, hm, heq2⟩ | ⟨parsed2, usage2, hm, hv, heq2⟩ |
      ⟨parsed2, usage2, a, hm, hv, heq2⟩
    · rw [hmodel] at hm
      exact absurd hm (by simp)
    · rw [heq2]
      exact ⟨rfl, rfl, rfl, rfl⟩
    · rw [hmodel] at hm
      injection hm with h1 h2
      subst h1
      rw [hbad] at hv
      exact absurd hv (by simp)

/-- Witness for the amended C2 at a concrete input. -/
theorem C2_witness :
    wModelBad = ModelOutcome.returns (some wBadJson) (some wUsage) ∧
    (analyzeHandler 100 wIsUrl wDate 250 (some "ck-1") wUserFresh wBodyUrl wB64
        wModelBad).modelCalled = true ∧
    (some wBadJson).bind validateAnalysisResult = none ∧
    ((analyzeHandler 100 wIsUrl wDate 250 (some "ck-1") wUserFresh wBodyUrl wB64
        wModelBad).status = 502 ∧
     (analyzeHandler 100 wIsUrl wDate 250 (some "ck-1") wUserFresh wBodyUrl wB64
        wModelBad).inspections = [] ∧
     (analyzeHandler 100 wIsUrl wDate 250 (some "ck-1") wUserFresh wBodyUrl wB64
        wModelBad).usageLogs = [] ∧
     (analyzeHandler 100 wIsUrl wDate 250 (some "ck-1") wUserFresh wBodyUrl wB64
        wModelBad).finalUser = wUserFresh) :=
  ⟨rfl, by decide, by decide,
   C2_invalid_output_records_nothing 100 wIsUrl wDate 250 (some "ck-1") wUserFresh
     wBodyUrl wB64 wModelBad (some wBadJson) (some wUsage) _ rfl rfl (by decide)
     (by decide)⟩

/-- Counterexample for C3: an attempt that reaches model invocation but whose
model output fails validation writes zero usage log rows, contrary to the
claim that every such attempt writes exactly one. -/
theorem C3_counterexample :
    (analyzeHandler 100 wIsUrl wDate 250 (some "ck-1") wUserFresh wBodyUrl wB64
        wModelBad).modelCalled = true ∧
    (analyzeHandler 100 wIsUrl wDate 250 (some "ck-1") wUserFresh wBodyUrl wB64
        wModelBad).usageLogs = [] := by
  decide

/-- Claim C3 amended: every analyze attempt that issues the model call writes
exactly one usage log row — on the 200 path a success row recording latency
and the token usage computed from the provider usage block, on the
thrown-error path a failure row recording the error name — except an attempt
whose model output fails JSON parsing or schema validation (the 502 path),
which writes no usage log row at all. -/
theorem C3_usage_log_accounting (limit : Nat) (isUrl : String → Bool) (now : UDate)
    (respMs : Nat) (auth : Option String) (appUser : UserRow) (body : AnalyzeBody)
    (b64 : B64Outcome) (model : ModelOutcome) (r : AnalyzeOutcome)
    (hr : r = analyzeHandler limit isUrl now respMs auth appUser body b64 model)
    (hcalled : r.modelCalled = true) :
    (∃ n st, model = ModelOutcome.throwsErr n st ∧ r.status = catchStatus st ∧
       r.usageLogs = [failureUsageLog appUser.id n respMs])
    ∨ (r.status = 502 ∧ r.usageLogs = [])
    ∨ (∃ parsed usage, model = ModelOutcome.returns parsed usage ∧ r.status = 200 ∧
         r.usageLogs = [successUsageLog appUser.id (tokensUsedOf usage) respMs]) := by
  subst hr
  rcases handler_cases limit isUrl now respMs auth appUser body b64 model with
    ⟨st, heq⟩ | ⟨n, st, heq⟩ | ⟨url, reached, heq⟩
  · rw [heq] at hcalled
    simp [rejectedOutcome] at hcalled
  · rw [heq] at hcalled
    simp [uploadFailOutcome] at hcalled
  · rw [heq]
    rcases modelStage_cases respMs appUser now url reached model with
      ⟨n, st, hm, heq2⟩ | ⟨parsed2, usage2, hm, hv, heq2⟩ |
      ⟨parsed2, usage2, a, hm, hv, heq2⟩
    · rw [heq2]
      exact Or.inl ⟨n, st, hm, rfl, rfl⟩
    · rw [heq2]
      exact Or.inr (Or.inl ⟨rfl, rfl⟩)
    · rw [heq2]
      exact Or.inr (Or.inr ⟨parsed2, usage2, hm, rfl, rfl⟩)

/-- Witness for the amended C3 at a concrete input: a successful run writes
exactly the one success usage log row. -/
theorem C3_witness :
    (analyzeHandler 100 wIsUrl wDate 250 (some "ck-1") wUserFresh wBodyUrl wB64
        wModelGood).modelCalled = true ∧
    ((∃ n st, wModelGood = ModelOutcome.throwsErr n st ∧
        (analyzeHandler 100 wIsUrl wDate 250 (some "ck-1") wUserFresh wBodyUrl wB64
            wModelGood).status = catchStatus st ∧
        (analyzeHandler 100 wIsUrl wDate 250 (some "ck-1") wUserFresh wBodyUrl wB64
            wModelGood).usageLogs = [failureUsageLog wUserFresh.id n 250])
     ∨ ((analyzeHandler 100 wIsUrl wDate 250 (some "ck-1") wUserFresh wBodyUrl wB64
            wModelGood).status = 502 ∧
        (analyzeHandler 100 wIsUrl wDate 250 (some "ck-1") wUserFresh wBodyUrl wB64
            wModelGood).usageLogs = [])
     ∨ (∃ parsed usage, wModelGood = ModelOutcome.returns parsed usage ∧
        (analyzeHandler 100 wIsUrl wDate 250 (some "ck-1") wUserFresh wBodyUrl wB64
            wModelGood).status = 200 ∧
        (analyzeHandler 100 wIsUrl wDate 250 (some "ck-1") wUserFresh wBodyUrl wB64
            wModelGood).usageLogs = [successUsageLog wUserFresh.id (tokensUsedOf usage) 250])) :=
  ⟨by decide,
   C3_usage_log_accounting 100 wIsUrl wDate 250 (some "ck-1") wUserFresh wBodyUrl wB64
     wModelGood _ rfl (by decide)⟩

/-- Counterexample for C7: a request whose imageData is a canonical base64
encoding of 9000000 bytes (decoded size above 8 MB) but which also supplies a
valid imageUrl is not answered 413: the handler prefers the URL, skips the
size guard entirely and issues the model call. -/
theorem C7_counterexample :
    wBigData.length = b64EncLen 9000000 ∧ 8000000 < 9000000 ∧
    (analyzeHandler 100 wIsUrl wDate 250 (some "ck-1") wUserFresh wBodyBigBoth wB64
        wModelGood).status ≠ 413 ∧
    (analyzeHandler 100 wIsUrl wDate 250 (some "ck-1") wUserFresh wBodyBigBoth wB64
        wModelGood).modelCalled = true := by
  have hlen : wBigData.length = 12000000 := List.length_replicate 12000000 'A'
  have h := handler_url_precedence 100 wIsUrl wDate 250 "ck-1" wUserFresh wBodyBigBoth
    wB64 wModelGood wUrl rfl (by decide)
    (fun d hd => by
      have : d = wBigData := by
        have hd2 : wBodyBigBoth.imageData = some wBigData := rfl
        rw [hd2] at hd
        exact (Option.some_inj.mp hd).symm
      rw [this, hlen]
      omega)
    (by decide)
  rw [h]
  refine ⟨by rw [hlen]; decide, by decide, by decide, by decide⟩

/-- Claim C7 amended: for every authenticated, quota-admitted analyze request
that supplies base64 imageData and no imageUrl, where the imageData is a
canonical padded base64 encoding of more than 8000000 bytes, the request is
answered 413 with no row written and no counter change, before the
compress-and-upload step and before the model call. -/
theorem C7_payload_guard (limit : Nat) (isUrl : String → Bool) (now : UDate)
    (respMs : Nat) (cid : String) (appUser : UserRow) (body : AnalyzeBody)
    (b64 : B64Outcome) (model : ModelOutcome) (s : String) (n : Nat)
    (hurl : body.imageUrl = none) (hdata : body.imageData = some s)
    (hlen : s.length = b64EncLen n) (hbig : 8000000 < n)
    (hq : canRunAnotherInspection limit (some appUser) now = true) :
    analyzeHandler limit isUrl now respMs (some cid) appUser body b64 model =
      rejectedOutcome appUser 413 := by
  have hlenpos : (1:Nat) ≤ s.length := by
    rw [hlen]
    unfold b64EncLen
    omega
  have hparse : analyzePayloadParse isUrl body =
      some { imageUrl := none, imageData := some s,
             imageType := body.imageType.getD "image/jpeg" } := by
    unfold analyzePayloadParse
    rw [hurl, hdata]
    simp [hlenpos]
  have hguard : 8000000 < s.length * 3 / 4 := by
    rw [hlen]
    unfold b64EncLen
    omega
  unfold analyzeHandler
  rw [hparse, hq]
  simp [analyzeAdmitted, hguard, rejectedOutcome]

/-- Witness for the amended C7 at a concrete input: a 12000000-character
base64 payload (9000000 decoded bytes) with no imageUrl is answered 413. -/
theorem C7_witness :
    wBodyBigNoUrl.imageUrl = none ∧ wBodyBigNoUrl.imageData = some wBigData ∧
    wBigData.length = b64EncLen 9000000 ∧ 8000000 < 9000000 ∧
    canRunAnotherInspection 100 (some wUserFresh) wDate = true ∧
    analyzeHandler 100 wIsUrl wDate 250 (some "ck-1") wUserFresh wBodyBigNoUrl wB64
        wModelGood = rejectedOutcome wUserFresh 413 :=
  ⟨rfl, rfl, by rw [show wBigData.length = 12000000 from List.length_replicate 12000000 'A']; decide,
   by decide, by decide,
   C7_payload_guard 100 wIsUrl wDate 250 "ck-1" wUserFresh wBodyBigNoUrl wB64 wModelGood
     wBigData 9000000 rfl rfl
     (by rw [show wBigData.length = 12000000 from List.length_replicate 12000000 'A']; decide)
     (by decide) (by decide)⟩

/-- Counterexample for C8: a body supplying both a valid imageUrl and a
non-empty imageData passes payload validation and is not answered 400 — here
the caller is at the quota, so the run proceeds past the payload check and
stops with 429. -/
theorem C8_counterexample :
    (analyzePayloadParse wIsUrl wBodyBoth).isSome = true ∧
    (analyzeHandler 100 wIsUrl wDate 250 (some "ck-1") wUserAtLimit wBodyBoth wB64
        wModelGood).status ≠ 400 := by
  decide

/-- Claim C8 amended: at least one of imageUrl and imageData is required — a
body supplying neither is rejected with 400 before any side effect; a body
supplying both a valid imageUrl and a non-empty imageData passes validation,
and imageUrl takes precedence: the compress-and-upload step is never
entered. -/
theorem C8_payload_requirements (limit : Nat) (isUrl : String → Bool) (now : UDate)
    (respMs : Nat) (cid : String) (appUser : UserRow) (bodyN bodyB : AnalyzeBody)
    (b64 : B64Outcome) (model : ModelOutcome) (u d : String)
    (hn1 : bodyN.imageUrl = none) (hn2 : bodyN.imageData = none)
    (hb1 : bodyB.imageUrl = some u) (hb2 : bodyB.imageData = some d)
    (hok : isUrl u = true) (hlen : 1 ≤ d.length) :
    (analyzePayloadParse isUrl bodyN = none ∧
     analyzeHandler limit isUrl now respMs (some cid) appUser bodyN b64 model =
       rejectedOutcome appUser 400) ∧
    ((analyzePayloadParse isUrl bodyB).isSome = true ∧
     (analyzeHandler limit isUrl now respMs (some cid) appUser bodyB b64
         model).reachedUpload = false) := by
  have hparseN : analyzePayloadParse isUrl bodyN = none := by
    unfold analyzePayloadParse
    rw [hn1, hn2]
    simp
  have hparseB : analyzePayloadParse isUrl bodyB =
      some { imageUrl := some u, imageData := some d,
             imageType := bodyB.imageType.getD "image/jpeg" } := by
    unfold analyzePayloadParse
    rw [hb1, hb2]
    simp [hok, hlen]
  refine ⟨⟨hparseN, ?_⟩, ⟨by rw [hparseB]; rfl, ?_⟩⟩
  · unfold analyzeHandler
    rw [hparseN]
  · unfold analyzeHandler
    rw [hparseB]
    by_cases hq : canRunAnotherInspection limit (some appUser) now
    · simp only [hq, Bool.not_true, Bool.false_eq_true, if_false]
      simpa [analyzeAdmitted] using modelStage_reached respMs appUser now u false model
    · rw [Bool.not_eq_true] at hq
      simp only [hq, Bool.not_false, if_true]
      rfl

/-- Witness for the amended C8 at concrete inputs: the empty body is rejected
400; the both-fields body passes validation and never enters the upload
step. -/
theorem C8_witness :
    wBodyNeither.imageUrl = none ∧ wBodyNeither.imageData = none ∧
    wBodyBoth.imageUrl = some wUrl ∧ wBodyBoth.imageData = some "aGVsbG8=" ∧
    wIsUrl wUrl = true ∧ 1 ≤ "aGVsbG8=".length ∧
    ((analyzePayloadParse wIsUrl wBodyNeither = none ∧
      analyzeHandler 100 wIsUrl wDate 250 (some "ck-1") wUserFresh wBodyNeither wB64
        wModelGood = rejectedOutcome wUserFresh 400) ∧
     ((analyzePayloadParse wIsUrl wBodyBoth).isSome = true ∧
      (analyzeHandler 100 wIsUrl wDate 250 (some "ck-1") wUserFresh wBodyBoth wB64
          wModelGood).reachedUpload = false)) :=
  ⟨rfl, rfl, rfl, rfl, by decide, by decide,
   C8_payload_requirements 100 wIsUrl wDate 250 "ck-1" wUserFresh wBodyNeither wBodyBoth
     wB64 wModelGood wUrl "aGVsbG8=" rfl rfl rfl rfl (by decide) (by decide)⟩

/-- Counterexample for C9: a valid image stored as 4000 by 3000 pixels with an
EXIF orientation that transposes it on display (a portrait photo saved
rotated) is resized by width, because the branch inspects the pre-rotation
metadata while the resize acts on the rotated raster; the output is 1600 by
2133 — taller than the 1600 cap on its longer edge. -/
theorem C9_counterexample :
    compressToWebP ⟨4000, 3000, true⟩ 1600 = ⟨1600, 2133⟩ ∧
    1600 < (compressToWebP ⟨4000, 3000, true⟩ 1600).height := by
  decide

/-- Claim C9 amended: for every decodable image whose EXIF orientation does
not transpose the displayed dimensions and whose stored dimensions are
positive, the normalizer output is a nonempty raster never wider or taller
than the configured cap on its longer edge; when the orientation transposes
the dimensions, the cap can be exceeded on one edge because the resize branch
inspects the pre-rotation metadata. -/
theorem C9_normalizer_cap (img : RawImage) (maxSide : Nat)
    (hexif : img.exifTransposed = false) (hw : 1 ≤ img.width) (hh : 1 ≤ img.height)
    (hm : 1 ≤ maxSide) :
    (compressToWebP img maxSide).width ≤ maxSide ∧
    (compressToWebP img maxSide).height ≤ maxSide ∧
    1 ≤ (compressToWebP img maxSide).width ∧
    1 ≤ (compressToWebP img maxSide).height := by
  have hne : img.width ≠ 0 ∧ img.height ≠ 0 := ⟨by omega, by omega⟩
  simp only [compressToWebP, hexif, Bool.false_eq_true, if_false]
  rw [if_pos hne]
  by_cases hcase : img.height ≤ img.width
  · rw [if_pos hcase]
    exact ⟨le_refl _, scaleDim_le img.height img.width maxSide (by omega) hcase hm,
      hm, one_le_scaleDim _ _ _⟩
  · rw [if_neg hcase]
    exact ⟨scaleDim_le img.width img.height maxSide (by omega) (by omega) hm,
      le_refl _, one_le_scaleDim _ _ _, hm⟩

/-- Witness for the amended C9 at a concrete input: a 4000 by 3000 landscape
image with no transposing orientation compresses to an output within the
1600-pixel cap on both edges. -/
theorem C9_witness :
    (⟨4000, 3000, false⟩ : RawImage).exifTransposed = false ∧
    1 ≤ (⟨4000, 3000, false⟩ : RawImage).width ∧
    1 ≤ (⟨4000, 3000, false⟩ : RawImage).height ∧ 1 ≤ 1600 ∧
    ((compressToWebP ⟨4000, 3000, false⟩ 1600).width ≤ 1600 ∧
     (compressToWebP ⟨4000, 3000, false⟩ 1600).height ≤ 1600 ∧
     1 ≤ (compressToWebP ⟨4000, 3000, false⟩ 1600).width ∧
     1 ≤ (compressToWebP ⟨4000, 3000, false⟩ 1600).height) :=
  ⟨rfl, by decide, by decide, by decide,
   C9_normalizer_cap ⟨4000, 3000, false⟩ 1600 rfl (by decide) (by decide) (by decide)⟩

/-- Counterexample for C10: when the pageSize query parameter does not parse
as a number (for example the string abc), Number yields NaN and Math.max and
Math.min propagate it, so the computed pageSize is NaN — no value clamped
between 1 and 50 results, contrary to the claim. -/
theorem C10_counterexample :
    ¬ ∃ q : ℚ, listPageSize QueryParam.nanVal = some q ∧ 1 ≤ q ∧ q ≤ 50 := by
  rintro ⟨q, hq, -, -⟩
  simp [listPageSize, jsMin, jsMax, numberParam] at hq

/-- Claim C10 amended: for every list request whose page and pageSize query
parameters are absent or parse as numbers, the computed page is at least 1
(default 1) and the computed pageSize lies between 1 and 50 (default 20), the
response carries at most 50 rows, and every returned row belongs to the
authenticated caller; a non-numeric parameter instead yields NaN, which is
not clamped into the range and makes the query fail. -/
theorem C10_list_pagination (rows : List DbInspection) (cid : String)
    (appUser : UserRow) (pq psq : QueryParam) (p ps : ℚ)
    (hp : numberParam 1 pq = some p) (hps : numberParam 20 psq = some ps) :
    ∃ p2 ps2 : ℚ, listPage pq = some p2 ∧ listPageSize psq = some ps2 ∧
      1 ≤ p2 ∧ 1 ≤ ps2 ∧ ps2 ≤ 50 ∧
      (listHandler rows (some cid) appUser pq psq).status = 200 ∧
      (listHandler rows (some cid) appUser pq psq).inspections.length ≤ 50 ∧
      ∀ row ∈ (listHandler rows (some cid) appUser pq psq).inspections,
        row.userId = appUser.id := by
  have hpage : listPage pq = some (max 1 p) := by
    simp [listPage, jsMax, hp]
  have hsize : listPageSize psq = some (min 50 (max 1 ps)) := by
    simp [listPageSize, jsMin, jsMax, hps]
  refine ⟨max 1 p, min 50 (max 1 ps), hpage, hsize, le_max_left 1 p,
    le_min (by norm_num) (le_max_left 1 ps), min_le_left 50 _, ?_, ?_, ?_⟩
  · simp [listHandler, hpage, hsize]
  · simp only [listHandler, hpage, hsize, listQuery]
    calc (((sortDesc (rows.filter (fun r => r.userId == appUser.id))).drop
            (pgSkip ((max 1 p - 1) * min 50 (max 1 ps)))).take
            (pgCount (min 50 (max 1 ps)))).length
        ≤ pgCount (min 50 (max 1 ps)) := by
          rw [List.length_take]
          exact min_le_left _ _
    _ ≤ 50 := pgCount_le_fifty _ (min_le_left 50 _)
  · intro row hrow
    simp only [listHandler, hpage, hsize, listQuery] at hrow
    have h1 := List.mem_of_mem_take hrow
    have h2 := List.mem_of_mem_drop h1
    rw [mem_sortDesc] at h2
    have h3 := (List.mem_filter.mp h2).2
    exact eq_of_beq h3

/-- Witness for the amended C10 at a concrete input: default page, explicit
pageSize 20, two stored rows of which one belongs to the caller. -/
theorem C10_witness :
    numberParam 1 QueryParam.absent = some 1 ∧
    numberParam 20 (QueryParam.num 20) = some 20 ∧
    (∃ p2 ps2 : ℚ,
      listPage QueryParam.absent = some p2 ∧
      listPageSize (QueryParam.num 20) = some ps2 ∧
      1 ≤ p2 ∧ 1 ≤ ps2 ∧ ps2 ≤ 50 ∧
      (listHandler [⟨1, "user-1", 100⟩, ⟨2, "other", 90⟩] (some "ck-1") wUserFresh
          QueryParam.absent (QueryParam.num 20)).status = 200 ∧
      (listHandler [⟨1, "user-1", 100⟩, ⟨2, "other", 90⟩] (some "ck-1") wUserFresh
          QueryParam.absent (QueryParam.num 20)).inspections.length ≤ 50 ∧
      ∀ row ∈ (listHandler [⟨1, "user-1", 100⟩, ⟨2, "other", 90⟩] (some "ck-1") wUserFresh
          QueryParam.absent (QueryParam.num 20)).inspections,
        row.userId = wUserFresh.id) :=
  ⟨rfl, rfl,
   C10_list_pagination [⟨1, "user-1", 100⟩, ⟨2, "other", 90⟩] "ck-1" wUserFresh
     QueryParam.absent (QueryParam.num 20) 1 20 rfl rfl⟩

end HseApp
